import Mathlib

/-!
Verification development for the benchmarking core of
`gpu-partitioning-demo.py` (nutanix-k8s-ai-demo).

The Python functions are shallowly embedded as pure Lean functions.
External effects (the `subprocess.run` calls to the model endpoint and
the `ollama list` availability probe) are modelled by outcome values
passed in as oracles; wall-clock durations and rates are modelled as
rationals (the concrete latencies appearing in the spec scenarios are
exactly representable, so rational arithmetic agrees with the float
arithmetic of the source on them).  A Python expression that can raise
`ZeroDivisionError` is embedded with `Except`, since a raise crosses the
function boundary.
-/

namespace GPUDemo

/-- One row of the static `self.models` table (only the fields the
benchmarking core reads). -/
structure ModelConfig where
  name : String
  mig_profile : String
  pods_per_gpu : Nat
deriving Repr, DecidableEq

def mcSmall : ModelConfig := ⟨"llama3.2:1b", "1g.6gb", 4⟩

def mcMedium : ModelConfig := ⟨"llama3.2:3b", "2g.12gb", 2⟩

def mcLarge : ModelConfig := ⟨"llama3.1:8b", "3g.20gb or Full A30", 1⟩

/-- The `self.models` table, in its Python insertion (enumeration) order. -/
def models : List (String × ModelConfig) :=
  [("small", mcSmall), ("medium", mcMedium), ("large", mcLarge)]

/-- Outcome of one `subprocess.run(["ollama", "run", ...])` call as observed
by `query_model`: normal completion (with return code, captured stdout and
stderr, and the measured wall-clock duration), a `TimeoutExpired`, or any
other exception. -/
inductive RunOutcome where
  | completed (returncode : Int) (stdout : String) (stderr : String) (duration : ℚ)
  | timedOut
  | raised (msg : String)
deriving Repr, DecidableEq

/-- Outcome of the `subprocess.run(["ollama", "list"]) ` call in
`check_model_available`: completion with captured stdout, or any
exception (timeout included; the bare `except` treats them alike). -/
inductive ListOutcome where
  | completed (stdout : String)
  | failed
deriving Repr, DecidableEq

/-- Return value of `query_model`: the success dictionary or the failure
dictionary. -/
inductive QueryResult where
  | ok (response : String) (duration : ℚ) (tokens : ℕ) (tokens_per_second : ℚ)
  | err (error : String)
deriving Repr, DecidableEq

/-- Token counter underlying Python `len(s.split())`: counts maximal
nonempty runs of non-whitespace characters.  The flag records whether the
scan is currently inside such a run. -/
def countTokensAux : List Char → Bool → ℕ
  | [], _ => 0
  | c :: rest, inWord =>
    if c.isWhitespace then countTokensAux rest false
    else (if inWord then 0 else 1) + countTokensAux rest true

/-- Number of whitespace-delimited tokens of a string, as computed by
Python `len(s.split())`. -/
def tokenCount (s : String) : ℕ := countTokensAux s.data false

/-- Python `s.strip()` on the character list. -/
def stripChars (l : List Char) : List Char :=
  ((l.dropWhile Char.isWhitespace).reverse.dropWhile Char.isWhitespace).reverse

/-- Python `s.strip()`. -/
def pyStrip (s : String) : String := String.mk (stripChars s.data)

/-- Embedding of `query_model` (lines 101-135): given the outcome of the
endpoint subprocess call, build the result dictionary.  Lines 117-120:
on return code zero the stdout is stripped, tokens are counted, and
tokens per second is `tokens / duration` when the duration is positive
and zero otherwise. -/
def query_model (o : RunOutcome) : QueryResult :=
  match o with
  | .completed rc out stderrText d =>
    if rc = 0 then
      let response := pyStrip out
      let tokens := tokenCount response
      .ok response d tokens (if 0 < d then (tokens : ℚ) / d else 0)
    else .err stderrText
  | .timedOut => .err "Query timeout"
  | .raised m => .err m

/-- Is `needle` a prefix of `hay` (character lists). -/
def isPrefixL : List Char → List Char → Bool
  | [], _ => true
  | _ :: _, [] => false
  | a :: as, b :: bs => a == b && isPrefixL as bs

/-- Python substring membership `needle in hay` on character lists. -/
def containsSub (needle : List Char) : List Char → Bool
  | [] => isPrefixL needle []
  | c :: rest => isPrefixL needle (c :: rest) || containsSub needle rest

/-- Embedding of `check_model_available` (lines 88-99): on a completed
`ollama list` call the result is the Python substring test
`model_name in result.stdout`; any exception yields `false`. -/
def check_model_available (model_name : String) (o : ListOutcome) : Bool :=
  match o with
  | .completed out => containsSub model_name.data out.data
  | .failed => false

/-- The success dictionary stored into the `results` mapping by
`run_model_comparison` (line 166). -/
structure SuccessRec where
  response : String
  duration : ℚ
  tokens : ℕ
  tokens_per_second : ℚ
deriving Repr, DecidableEq

/-- Body of one iteration of the `run_model_comparison` loop
(lines 143-168) for one `(size, config)` row: `None` when the row leaves
no entry in the `results` mapping (unavailable, or invoked and failed),
`some` entry when the invocation succeeded. -/
def compareStep (avail : String → ListOutcome) (query : String → RunOutcome)
    (p : String × ModelConfig) : Option (String × SuccessRec) :=
  if check_model_available p.2.name (avail p.2.name) then
    match query_model (query p.2.name) with
    | .ok r d tk tps => some (p.1, ⟨r, d, tk, tps⟩)
    | .err _ => none
  else none

/-- Embedding of `run_model_comparison` (lines 137-170): iterate the
configuration table in order, skip unavailable configurations, invoke
the endpoint once per remaining configuration, and collect the
successful results keyed by size.  The oracles give the outcome of the
availability probe and of the endpoint call for each model name. -/
def run_model_comparison (table : List (String × ModelConfig))
    (avail : String → ListOutcome) (query : String → RunOutcome) :
    List (String × SuccessRec) :=
  table.filterMap (compareStep avail query)

/-- Per-request record appended to `results` by the concurrent load test
(lines 514-520). -/
structure ReqRecord where
  id : ℕ
  duration : ℚ
  success : Bool
  tokens : ℕ
  tokens_per_sec : ℚ
deriving Repr, DecidableEq

/-- Embedding of `send_request` (lines 509-520): wrap one endpoint call
outcome, with the externally measured wall duration, into a per-request
record; on failure the token fields default to zero via `dict.get`. -/
def send_request (request_id : ℕ) (o : RunOutcome) (wall : ℚ) : ReqRecord :=
  match query_model o with
  | .ok _ _ tk tps => ⟨request_id, wall, true, tk, tps⟩
  | .err _ => ⟨request_id, wall, false, 0, 0⟩

/-- `num_requests = 6` (line 506). -/
def num_requests : ℕ := 6

/-- The `results` list collected by the `as_completed` loop
(lines 526-533): requests are indexed `0, ..., n-1` (submitted with ids
`i + 1`), `reqs` gives each request its endpoint outcome and measured
wall duration, and `order` is the completion order in which the futures
are consumed. -/
def concurrentResults (reqs : List (RunOutcome × ℚ)) (order : List ℕ) :
    List ReqRecord :=
  order.filterMap fun i => (reqs.get? i).map fun p => send_request (i + 1) p.1 p.2

/-- Number of successful records, as in line 536. -/
def successCount (recs : List ReqRecord) : ℕ :=
  (recs.filter fun r => r.success).length

/-- The load-test summary printed at lines 539-545. -/
structure LoadSummary where
  total : ℕ
  successful : ℕ
  failed : ℕ
  total_time : ℚ
  avg_duration : ℚ
  requests_per_minute : ℚ
deriving Repr, DecidableEq

/-- Embedding of the aggregation tail of `run_concurrent_load_test`
(lines 535-545): the average duration is taken over successful records
and guarded (`if successful > 0 else 0`, line 537); the requests per
minute figure divides by the wall-clock time unguarded (line 545), so a
zero wall time models the `ZeroDivisionError` Python would raise. -/
def loadSummary (recs : List ReqRecord) (total_time : ℚ) :
    Except String LoadSummary :=
  let succ := successCount recs
  let avg : ℚ :=
    if 0 < succ then
      ((recs.filter fun r => r.success).map fun r => r.duration).sum / (succ : ℚ)
    else 0
  if total_time = 0 then .error "ZeroDivisionError"
  else
    .ok ⟨recs.length, succ, recs.length - succ, total_time, avg,
      (succ : ℚ) / total_time * 60⟩

/-- Minimum of a list of rationals (0 for the empty list; only applied
to nonempty worker lists). -/
def listMin : List ℚ → ℚ
  | [] => 0
  | [x] => x
  | x :: y :: rest => min x (listMin (y :: rest))

/-- Maximum of a list of rationals (0 for the empty list). -/
def listMax : List ℚ → ℚ
  | [] => 0
  | [x] => x
  | x :: y :: rest => max x (listMax (y :: rest))

/-- Replace the first occurrence of `t` in the list by `f`. -/
def replaceFirst : List ℚ → ℚ → ℚ → List ℚ
  | [], _, _ => []
  | w :: rest, t, f => if w = t then f :: rest else w :: replaceFirst rest t f

/-- Completion times of tasks dispatched greedily to a pool of workers:
`ws` holds each worker's next free time; every task goes to an
earliest-free worker and finishes after its duration.  This models
`ThreadPoolExecutor(max_workers=4)` (line 526) with all tasks submitted
up front. -/
def poolFinish : List ℚ → List ℚ → List ℚ
  | _, [] => []
  | ws, d :: ds =>
    let t := listMin ws
    (t + d) :: poolFinish (replaceFirst ws t (t + d)) ds

/-- Wall-clock time of a batch: from dispatch start (time 0) to the last
completion, under greedy dispatch over `max_workers` workers. -/
def wallClock (max_workers : ℕ) (durs : List ℚ) : ℚ :=
  listMax (poolFinish (List.replicate max_workers 0) durs)

/-- One row of the `throughput_data` mapping built by
`calculate_throughput_metrics` (lines 839-846). -/
structure ThroughputEntry where
  model : String
  avg_duration : ℚ
  single_pod_rpm : ℚ
  total_rpm : ℚ
  pods : ℕ
  mig_profile : String
deriving Repr, DecidableEq

/-- The `durations` list of lines 828-833: the durations reported by the
successful trial results, in trial order. -/
def successDurations (outs : List RunOutcome) : List ℚ :=
  outs.filterMap fun o =>
    match query_model o with
    | .ok _ d _ _ => some d
    | .err _ => none

/-- Per-configuration body of `calculate_throughput_metrics`
(lines 827-850): with no successful trial (`if durations:` false,
line 835) the configuration gets no entry; otherwise the average
duration is `sum / len` and the rates divide 60 by it (lines 836-837),
which Python computes unguarded, so a zero average models the
`ZeroDivisionError` a zero float average would raise. -/
def throughputForConfig (cfg : ModelConfig) (outs : List RunOutcome) :
    Except String (Option ThroughputEntry) :=
  let durs := successDurations outs
  if durs.isEmpty then .ok none
  else
    let avg := durs.sum / (durs.length : ℚ)
    if avg = 0 then .error "ZeroDivisionError"
    else
      .ok (some ⟨cfg.name, avg, 60 / avg, 60 / avg * (cfg.pods_per_gpu : ℚ),
        cfg.pods_per_gpu, cfg.mig_profile⟩)

/-- Three trials per configuration (`for i in range(3)`, line 829). -/
def trialCount : ℕ := 3

/-- Embedding of `calculate_throughput_metrics` (lines 809-876):
iterate the table in order, skip unavailable configurations, run three
trials against each remaining one, and collect the entries keyed by
size; a raised division fault aborts the whole run. -/
def calculate_throughput_metrics (table : List (String × ModelConfig))
    (avail : String → ListOutcome) (trial : String → ℕ → RunOutcome) :
    Except String (List (String × ThroughputEntry)) :=
  match table with
  | [] => .ok []
  | (size, cfg) :: rest =>
    if check_model_available cfg.name (avail cfg.name) then
      match throughputForConfig cfg ((List.range trialCount).map (trial cfg.name)) with
      | .error e => .error e
      | .ok none => calculate_throughput_metrics rest avail trial
      | .ok (some entry) =>
        match calculate_throughput_metrics rest avail trial with
        | .error e => .error e
        | .ok l => .ok ((size, entry) :: l)
    else calculate_throughput_metrics rest avail trial

/-- The summary record `loadSummary` produces when the wall time is
nonzero, written out explicitly. -/
def summaryOf (recs : List ReqRecord) (total_time : ℚ) : LoadSummary :=
  ⟨recs.length, successCount recs, recs.length - successCount recs, total_time,
    if 0 < successCount recs then
      ((recs.filter fun r => r.success).map fun r => r.duration).sum /
        (successCount recs : ℚ)
    else 0,
    (successCount recs : ℚ) / total_time * 60⟩

/-- Availability oracle whose `ollama list` stdout is exactly the queried
model name, so every configuration is reported available. -/
def availEcho : String → ListOutcome := fun n => .completed n

/-- Endpoint oracle for which every call fails with a nonzero return
code and stderr text `boom`. -/
def queryAllFail : String → RunOutcome := fun _ => .completed 1 "" "boom" 1

/-- Endpoint oracle failing exactly on the small model and succeeding
elsewhere. -/
def querySmallFails : String → RunOutcome := fun n =>
  if n = mcSmall.name then .completed 1 "" "boom" 1 else .completed 0 "hi there" "" 1

/-- Trial oracle for which every trial times out. -/
def trialAllTimeout : String → ℕ → RunOutcome := fun _ _ => .timedOut

/-- Trial oracle realising the throughput scenario: per-call latency
0.5 s for the small model, 1.0 s for the medium one, 2.0 s for the
large one, every call succeeding. -/
def trialScenario : String → ℕ → RunOutcome := fun n _ =>
  if n = mcSmall.name then .completed 0 "x" "" (1 / 2)
  else if n = mcMedium.name then .completed 0 "x" "" 1
  else .completed 0 "x" "" 2

/-- Two requests for the result-count witness: one success, one timeout. -/
def twoReqs : List (RunOutcome × ℚ) :=
  [(.completed 0 "hello world" "" 1, 1), (.timedOut, 120)]

/-- One concurrent-scenario request: a call succeeding in 1.0 s. -/
def oneSecondCall : RunOutcome := .completed 0 "ok" "" 1

/-- The concurrent-load scenario requests: six calls, each succeeding in
1.0 s of wall time. -/
def scenarioReqs : List (RunOutcome × ℚ) :=
  List.replicate num_requests (oneSecondCall, 1)

/- ------------------------------------------------------------------ -/
/- Helper lemmas                                                      -/
/- ------------------------------------------------------------------ -/

theorem length_filterMap_of_isSome {α β : Type _} (f : α → Option β)
    (l : List α) (h : ∀ a ∈ l, (f a).isSome) :
    (l.filterMap f).length = l.length := by
  induction l with
  | nil => simp
  | cons a t ih =>
    rcases Option.isSome_iff_exists.mp (h a (List.mem_cons_self a t)) with ⟨b, hb⟩
    simp [List.filterMap_cons, hb, ih fun x hx => h x (List.mem_cons_of_mem a hx)]

theorem loadSummary_eq (recs : List ReqRecord) (t : ℚ) (ht : t ≠ 0) :
    loadSummary recs t = .ok (summaryOf recs t) := by
  simp only [loadSummary, summaryOf]
  rw [if_neg ht]

theorem compareStep_fst {avail : String → ListOutcome}
    {query : String → RunOutcome} {p : String × ModelConfig}
    {b : String × SuccessRec} (h : compareStep avail query p = some b) :
    b.1 = p.1 := by
  simp only [compareStep] at h
  split at h
  · split at h
    · cases h
      rfl
    · exact absurd h (by simp)
  · exact absurd h (by simp)

theorem compareStep_of_unavailable {avail : String → ListOutcome}
    {query : String → RunOutcome} {size : String} {cfg : ModelConfig}
    (h : check_model_available cfg.name (avail cfg.name) = false) :
    compareStep avail query (size, cfg) = none := by
  simp [compareStep, h]

theorem compareStep_of_queryFail {avail : String → ListOutcome}
    {query : String → RunOutcome} {size : String} {cfg : ModelConfig}
    {e : String} (h : query_model (query cfg.name) = .err e) :
    compareStep avail query (size, cfg) = none := by
  simp only [compareStep]
  split
  · simp [h]
  · rfl

/- ------------------------------------------------------------------ -/
/- Claim theorems                                                     -/
/- ------------------------------------------------------------------ -/

/-- C1: for every invocation of the concurrent load runner, whatever the
per-request outcomes and whatever order the futures complete in (any
permutation of the submitted request indices), the collected results
list contains exactly one record per submitted request. -/
theorem c1_result_count (reqs : List (RunOutcome × ℚ)) (order : List ℕ)
    (h : order.Perm (List.range reqs.length)) :
    (concurrentResults reqs order).length = reqs.length := by
  have hlt : ∀ i ∈ order, i < reqs.length := fun i hi =>
    List.mem_range.mp (h.subset hi)
  have hs : ∀ i ∈ order,
      ((reqs.get? i).map fun p => send_request (i + 1) p.1 p.2).isSome := by
    intro i hi
    cases hq : reqs.get? i with
    | none =>
      exact absurd (List.get?_eq_none.mp hq) (Nat.not_le.mpr (hlt i hi))
    | some p => simp [hq]
  calc (concurrentResults reqs order).length = order.length :=
        length_filterMap_of_isSome _ order hs
    _ = (List.range reqs.length).length := h.length_eq
    _ = reqs.length := List.length_range _

/-- Witness for C1: two requests, one of which times out, consumed in
reversed completion order, still yield exactly two records. -/
theorem c1_result_count_witness :
    (concurrentResults twoReqs [1, 0]).length = 2 := by
  have hr : List.range twoReqs.length = [0, 1] := rfl
  have h : ([1, 0] : List ℕ).Perm (List.range twoReqs.length) := by
    rw [hr]
    exact List.Perm.swap 0 1 []
  exact c1_result_count twoReqs [1, 0] h

/-- C9: the endpoint client is total: every outcome of the subprocess
call maps to a returned result record, success carrying the stripped
response text and the measured duration on normal zero-status
completion, and failure carrying a distinguishing error description on
timeout, nonzero status, or any other fault. -/
theorem c9_endpoint_client_total (o : RunOutcome) :
    ((∃ r d tk tps, query_model o = .ok r d tk tps) ∨
      ∃ e, query_model o = .err e) ∧
    (o = .timedOut → query_model o = .err "Query timeout") ∧
    (∀ (rc : Int) (out stderrText : String) (d : ℚ),
      o = .completed rc out stderrText d →
        (rc = 0 → ∃ tk tps, query_model o = .ok (pyStrip out) d tk tps) ∧
        (rc ≠ 0 → query_model o = .err stderrText)) ∧
    (∀ m, o = .raised m → query_model o = .err m) := by
  refine ⟨?_, ?_, ?_, ?_⟩
  · cases o with
    | completed rc out st d =>
      by_cases h : rc = 0
      · exact Or.inl ⟨pyStrip out, d, tokenCount (pyStrip out),
          (if 0 < d then ((tokenCount (pyStrip out) : ℚ)) / d else 0),
          by simp [query_model, h]⟩
      · exact Or.inr ⟨st, by simp [query_model, h]⟩
    | timedOut => exact Or.inr ⟨_, rfl⟩
    | raised m => exact Or.inr ⟨m, rfl⟩
  · intro h
    subst h
    rfl
  · intro rc2 out2 st2 d2 heq
    subst heq
    constructor
    · intro h0
      exact ⟨tokenCount (pyStrip out2),
        (if 0 < d2 then ((tokenCount (pyStrip out2) : ℚ)) / d2 else 0),
        by simp [query_model, h0]⟩
    · intro h0
      simp [query_model, h0]
  · intro m h
    subst h
    rfl

/-- Witness for C9: the timeout outcome yields a returned failure record
with the distinguishing Timeout description. -/
theorem c9_endpoint_client_total_witness :
    query_model .timedOut = .err "Query timeout" :=
  (c9_endpoint_client_total .timedOut).2.1 rfl

/-- C6: for every successful endpoint invocation, the token count of the
returned record equals the number of whitespace-delimited tokens of the
response text, tokens per second equals that count divided by the
duration when the duration is positive and is zero when the duration is
zero, and the empty response has token count zero (the extraction is a
pure function of the response text and the duration, being a plain Lean
function of exactly those two values). -/
theorem c6_metric_extraction :
    (∀ (o : RunOutcome) (r : String) (d : ℚ) (tk : ℕ) (tps : ℚ),
      query_model o = .ok r d tk tps →
        tk = tokenCount r ∧ (0 < d → tps = (tk : ℚ) / d) ∧
          (d = 0 → tps = 0)) ∧
    tokenCount "" = 0 ∧
    tokenCount " alpha  beta\tgamma " = 3 := by
  refine ⟨?_, rfl, by decide⟩
  intro o r d tk tps h
  cases o with
  | completed rc out st dd =>
    simp only [query_model] at h
    by_cases hrc : rc = 0
    · rw [if_pos hrc] at h
      injection h with h1 h2 h3 h4
      subst h1
      subst h2
      subst h3
      subst h4
      refine ⟨rfl, ?_, ?_⟩
      · intro hd
        rw [if_pos hd]
      · intro hd
        rw [hd]
        simp
    · rw [if_neg hrc] at h
      simp at h
  | timedOut =>
    simp only [query_model] at h
    simp at h
  | raised m =>
    simp only [query_model] at h
    simp at h

/-- Witness for C6: a successful invocation with response text of two
tokens and (degenerate) zero duration has token count 2 and tokens per
second 0. -/
theorem c6_metric_extraction_witness :
    2 = tokenCount "hello world" ∧
    ((0 : ℚ) < 0 → (0 : ℚ) = ((2 : ℕ) : ℚ) / 0) ∧
    ((0 : ℚ) = 0 → (0 : ℚ) = 0) :=
  c6_metric_extraction.1 (.completed 0 "hello world" "" 0) "hello world" 0 2 0
    (by decide)

/-- C10: the availability check never raises and maps every faulted
listing call to false, and a run of the sequential comparison in which
every availability probe faults returns the empty result mapping
instead of aborting. -/
theorem c10_availability_fault_safe :
    (∀ name : String, check_model_available name .failed = false) ∧
    ∀ (table : List (String × ModelConfig)) (avail : String → ListOutcome)
      (query : String → RunOutcome), (∀ n, avail n = .failed) →
      run_model_comparison table avail query = [] := by
  refine ⟨fun _ => rfl, ?_⟩
  intro table avail query hfa
  induction table with
  | nil => rfl
  | cons p rest ih =>
    have hstep : compareStep avail query p = none := by
      simp [compareStep, hfa p.2.name, check_model_available]
    simp only [run_model_comparison, List.filterMap_cons, hstep]
    simpa only [run_model_comparison] using ih

/-- Witness for C10: the full model table probed with an
always-faulting availability oracle yields the empty mapping. -/
theorem c10_availability_fault_safe_witness :
    run_model_comparison models (fun _ => .failed)
      (fun _ => .completed 0 "ok" "" 1) = [] :=
  c10_availability_fault_safe.2 models (fun _ => .failed)
    (fun _ => .completed 0 "ok" "" 1) (fun _ => rfl)

/-- Counterexample to C3 as stated: with every configuration available
and every invocation failing (nonzero status), the run completes but
the result mapping is empty: the failures are NOT recorded as entries
in the result mapping, contrary to the claim. -/
theorem c3_counterexample :
    check_model_available mcSmall.name (availEcho mcSmall.name) = true ∧
    query_model (queryAllFail mcSmall.name) = .err "boom" ∧
    run_model_comparison models availEcho queryAllFail = [] := by
  refine ⟨by decide, by decide, rfl⟩

/-- C3 (amended): a failed invocation is never raised and never aborts
the batch: the run over a table containing a failing configuration
equals the concatenation of the runs over the configurations before and
after it (so the remaining configurations are still probed exactly as
without it), but the failing configuration leaves no entry in the
result mapping (only successes are recorded). -/
theorem c3_failure_skipped_batch_continues (pre post : List (String × ModelConfig))
    (size : String) (cfg : ModelConfig) (avail : String → ListOutcome)
    (query : String → RunOutcome) (e : String)
    (hfail : query_model (query cfg.name) = .err e) :
    run_model_comparison (pre ++ (size, cfg) :: post) avail query =
      run_model_comparison pre avail query ++
        run_model_comparison post avail query := by
  have hstep : compareStep avail query (size, cfg) = none :=
    compareStep_of_queryFail hfail
  simp only [run_model_comparison, List.filterMap_append, List.filterMap_cons,
    hstep]

/-- Witness for C3 (amended): the small model fails while the medium
one succeeds; the batch result equals the runs around the failing
configuration concatenated. -/
theorem c3_failure_skipped_witness :
    run_model_comparison ([] ++ ("small", mcSmall) :: [("medium", mcMedium)])
        availEcho querySmallFails =
      run_model_comparison [] availEcho querySmallFails ++
        run_model_comparison [("medium", mcMedium)] availEcho querySmallFails :=
  c3_failure_skipped_batch_continues [] [("medium", mcMedium)] "small" mcSmall
    availEcho querySmallFails "boom" (by decide)

/-- C7: a configuration whose availability check reports it unavailable
is skipped: the run over the surrounding table equals the concatenation
of the runs before and after it (the endpoint is not invoked for it and
the run still returns the remaining entries), and, when no other row
shares its key, the result mapping has no entry at all under that key
(absent, not recorded as failed). -/
theorem c7_unavailable_config_absent (pre post : List (String × ModelConfig))
    (size : String) (cfg : ModelConfig) (avail : String → ListOutcome)
    (query : String → RunOutcome)
    (hun : check_model_available cfg.name (avail cfg.name) = false)
    (hkey : ∀ p ∈ pre ++ post, p.1 ≠ size) :
    run_model_comparison (pre ++ (size, cfg) :: post) avail query =
      run_model_comparison pre avail query ++
        run_model_comparison post avail query ∧
    ∀ rec : SuccessRec,
      (size, rec) ∉ run_model_comparison (pre ++ (size, cfg) :: post) avail query := by
  have hstep : compareStep avail query (size, cfg) = none :=
    compareStep_of_unavailable hun
  have hsplit : run_model_comparison (pre ++ (size, cfg) :: post) avail query =
      run_model_comparison pre avail query ++
        run_model_comparison post avail query := by
    simp only [run_model_comparison, List.filterMap_append, List.filterMap_cons,
      hstep]
  refine ⟨hsplit, ?_⟩
  intro rec hmem
  rw [hsplit] at hmem
  rcases List.mem_append.mp hmem with hl | hr
  · rcases List.mem_filterMap.mp hl with ⟨p, hp, hsome⟩
    exact hkey p (List.mem_append.mpr (Or.inl hp)) (compareStep_fst hsome).symm
  · rcases List.mem_filterMap.mp hr with ⟨p, hp, hsome⟩
    exact hkey p (List.mem_append.mpr (Or.inr hp)) (compareStep_fst hsome).symm

/-- Witness for C7: the medium model is unavailable among three
configurations; it is absent from the mapping and the run still equals
the runs over the other two configurations. -/
theorem c7_unavailable_config_absent_witness :
    run_model_comparison ([("small", mcSmall)] ++ ("medium", mcMedium) ::
        [("large", mcLarge)])
        (fun n => if n = mcMedium.name then .failed else .completed n)
        (fun _ => .completed 0 "hi there" "" 1) =
      run_model_comparison [("small", mcSmall)]
        (fun n => if n = mcMedium.name then .failed else .completed n)
        (fun _ => .completed 0 "hi there" "" 1) ++
        run_model_comparison [("large", mcLarge)]
          (fun n => if n = mcMedium.name then .failed else .completed n)
          (fun _ => .completed 0 "hi there" "" 1) ∧
    ∀ rec : SuccessRec,
      ("medium", rec) ∉ run_model_comparison ([("small", mcSmall)] ++
        ("medium", mcMedium) :: [("large", mcLarge)])
        (fun n => if n = mcMedium.name then .failed else .completed n)
        (fun _ => .completed 0 "hi there" "" 1) :=
  c7_unavailable_config_absent [("small", mcSmall)] [("large", mcLarge)]
    "medium" mcMedium
    (fun n => if n = mcMedium.name then .failed else .completed n)
    (fun _ => .completed 0 "hi there" "" 1)
    (by decide) (by decide)

/-- C8: the average duration of a concurrent batch depends only on the
successful records (two batches with the same successful sublist have
the same average whatever their failures and wall times are), and a
batch with zero successes still yields a summary, with average duration
reported as zero rather than a division fault. -/
theorem c8_average_only_over_successes (recs recs2 : List ReqRecord) (t t2 : ℚ)
    (ht : t ≠ 0) (ht2 : t2 ≠ 0)
    (hf : recs.filter (fun r => r.success) = recs2.filter fun r => r.success) :
    (∃ s s2, loadSummary recs t = .ok s ∧ loadSummary recs2 t2 = .ok s2 ∧
      s.avg_duration = s2.avg_duration) ∧
    (successCount recs = 0 →
      ∃ s, loadSummary recs t = .ok s ∧ s.avg_duration = 0 ∧
        s.successful = 0) := by
  have hsc : successCount recs = successCount recs2 := by
    simp only [successCount, hf]
  constructor
  · refine ⟨summaryOf recs t, summaryOf recs2 t2, loadSummary_eq recs t ht,
      loadSummary_eq recs2 t2 ht2, ?_⟩
    simp only [summaryOf]
    rw [hf, hsc]
  · intro h0
    refine ⟨summaryOf recs t, loadSummary_eq recs t ht, ?_, ?_⟩
    · simp [summaryOf, h0]
    · simp [summaryOf, h0]

/-- Witness for C8: an all-failed batch of one request still yields a
summary with zero successes and zero average duration. -/
theorem c8_average_only_over_successes_witness :
    (∃ s s2, loadSummary [⟨1, 5, false, 0, 0⟩] 3 = .ok s ∧
      loadSummary [] 1 = .ok s2 ∧ s.avg_duration = s2.avg_duration) ∧
    (successCount [⟨1, 5, false, 0, 0⟩] = 0 →
      ∃ s, loadSummary [⟨1, 5, false, 0, 0⟩] 3 = .ok s ∧ s.avg_duration = 0 ∧
        s.successful = 0) :=
  c8_average_only_over_successes [⟨1, 5, false, 0, 0⟩] [] 3 1 (by norm_num)
    (by norm_num) (by decide)

/-- All trials failed: the configuration gets no throughput entry. -/
theorem throughputForConfig_of_no_success (cfg : ModelConfig)
    (outs : List RunOutcome) (h : successDurations outs = []) :
    throughputForConfig cfg outs = .ok none := by
  simp [throughputForConfig, h]

/-- Zero average duration: the unguarded `60 / avg_duration` divisions
of lines 837 and 842 raise. -/
theorem throughputForConfig_of_zero_avg (cfg : ModelConfig)
    (outs : List RunOutcome) (hne : successDurations outs ≠ [])
    (h0 : (successDurations outs).sum = 0) :
    throughputForConfig cfg outs = .error "ZeroDivisionError" := by
  simp only [throughputForConfig]
  rw [if_neg (by simp [hne]), if_pos (by rw [h0]; exact zero_div _)]

/-- Some trial succeeded with a nonzero average: the entry is produced
with the rates of lines 836-846. -/
theorem throughputForConfig_of_success (cfg : ModelConfig)
    (outs : List RunOutcome) (hne : successDurations outs ≠ [])
    (h0 : (successDurations outs).sum ≠ 0) :
    throughputForConfig cfg outs = .ok (some
      ⟨cfg.name,
        (successDurations outs).sum / ((successDurations outs).length : ℚ),
        60 / ((successDurations outs).sum / ((successDurations outs).length : ℚ)),
        60 / ((successDurations outs).sum /
            ((successDurations outs).length : ℚ)) * (cfg.pods_per_gpu : ℚ),
        cfg.pods_per_gpu, cfg.mig_profile⟩) := by
  have hlen : ((successDurations outs).length : ℚ) ≠ 0 :=
    Nat.cast_ne_zero.mpr fun hl => hne (List.length_eq_zero.mp hl)
  simp only [throughputForConfig]
  rw [if_neg (by simp [hne]), if_neg (div_ne_zero h0 hlen)]

/-- Counterexample to C4 as stated: with every configuration available
and every trial failing, the throughput run completes with an EMPTY
output: no configuration is present with a zero rate, contrary to the
claim that the configuration is still present in the output with the
rate reported as zero. -/
theorem c4_counterexample :
    successDurations ((List.range trialCount).map
      (trialAllTimeout mcSmall.name)) = [] ∧
    check_model_available mcSmall.name (availEcho mcSmall.name) = true ∧
    calculate_throughput_metrics models availEcho trialAllTimeout = .ok [] :=
  ⟨rfl, by decide, rfl⟩

/-- C4 (amended): single_instance_rate equals 60 divided by the average
duration of the successful trials when that average is nonzero; when
all trials failed the configuration is omitted from the output entirely
(no zero-rate entry), and a zero average duration is not guarded: the
division raises instead of reporting zero. -/
theorem c4_degenerate_rate (cfg : ModelConfig) (outs : List RunOutcome) :
    (successDurations outs = [] → throughputForConfig cfg outs = .ok none) ∧
    (successDurations outs ≠ [] → (successDurations outs).sum = 0 →
      throughputForConfig cfg outs = .error "ZeroDivisionError") ∧
    (successDurations outs ≠ [] → (successDurations outs).sum ≠ 0 →
      ∃ en, throughputForConfig cfg outs = .ok (some en) ∧
        en.avg_duration = (successDurations outs).sum /
          ((successDurations outs).length : ℚ) ∧
        en.single_pod_rpm = 60 / en.avg_duration) :=
  ⟨fun h => throughputForConfig_of_no_success cfg outs h,
   fun hne h0 => throughputForConfig_of_zero_avg cfg outs hne h0,
   fun hne h0 =>
     ⟨_, throughputForConfig_of_success cfg outs hne h0, rfl, rfl⟩⟩

/-- Witness for C4 (amended): three successful one-second trials give
an entry whose single-instance rate is 60 over the average duration. -/
theorem c4_degenerate_rate_witness :
    ∃ en, throughputForConfig mcSmall (List.replicate 3 oneSecondCall) =
        .ok (some en) ∧
      en.avg_duration = (successDurations (List.replicate 3 oneSecondCall)).sum /
        ((successDurations (List.replicate 3 oneSecondCall)).length : ℚ) ∧
      en.single_pod_rpm = 60 / en.avg_duration :=
  (c4_degenerate_rate mcSmall (List.replicate 3 oneSecondCall)).2.2 (by decide)
    (by
      rw [show successDurations (List.replicate 3 oneSecondCall) = [1, 1, 1]
        from rfl]
      norm_num)

/-- C5: for every configuration whose trials include a success (with
positive latencies), the produced entry satisfies
total rate = single-instance rate times the replication factor; and the
scenario with replication factors 4, 2, 1 and per-call latencies 0.5 s,
1.0 s, 2.0 s over three trials each yields single-instance rates of
120, 60, 30 requests per minute and total rates of 480, 120, 30. -/
theorem c5_total_rate :
    (∀ (cfg : ModelConfig) (outs : List RunOutcome),
      successDurations outs ≠ [] → (∀ d ∈ successDurations outs, 0 < d) →
      ∃ en, throughputForConfig cfg outs = .ok (some en) ∧
        en.total_rpm = en.single_pod_rpm * (cfg.pods_per_gpu : ℚ) ∧
        en.pods = cfg.pods_per_gpu) ∧
    calculate_throughput_metrics models availEcho trialScenario = .ok
      [("small", ⟨mcSmall.name, 1 / 2, 120, 480, 4, mcSmall.mig_profile⟩),
       ("medium", ⟨mcMedium.name, 1, 60, 120, 2, mcMedium.mig_profile⟩),
       ("large", ⟨mcLarge.name, 2, 30, 30, 1, mcLarge.mig_profile⟩)] := by
  constructor
  · intro cfg outs hne hpos
    have h0 : (successDurations outs).sum ≠ 0 :=
      (List.sum_pos _ hpos hne).ne'
    exact ⟨_, throughputForConfig_of_success cfg outs hne h0, rfl, rfl⟩
  · have hsS : successDurations ((List.range trialCount).map
        (trialScenario mcSmall.name)) = [1 / 2, 1 / 2, 1 / 2] := rfl
    have hsM : successDurations ((List.range trialCount).map
        (trialScenario mcMedium.name)) = [1, 1, 1] := rfl
    have hsL : successDurations ((List.range trialCount).map
        (trialScenario mcLarge.name)) = [2, 2, 2] := rfl
    have htS : throughputForConfig mcSmall ((List.range trialCount).map
        (trialScenario mcSmall.name)) = .ok (some
          ⟨mcSmall.name, 1 / 2, 120, 480, 4, mcSmall.mig_profile⟩) := by
      rw [throughputForConfig_of_success mcSmall _ (by rw [hsS]; simp)
        (by rw [hsS]; norm_num), hsS]
      norm_num [mcSmall]
    have htM : throughputForConfig mcMedium ((List.range trialCount).map
        (trialScenario mcMedium.name)) = .ok (some
          ⟨mcMedium.name, 1, 60, 120, 2, mcMedium.mig_profile⟩) := by
      rw [throughputForConfig_of_success mcMedium _ (by rw [hsM]; simp)
        (by rw [hsM]; norm_num), hsM]
      norm_num [mcMedium]
    have htL : throughputForConfig mcLarge ((List.range trialCount).map
        (trialScenario mcLarge.name)) = .ok (some
          ⟨mcLarge.name, 2, 30, 30, 1, mcLarge.mig_profile⟩) := by
      rw [throughputForConfig_of_success mcLarge _ (by rw [hsL]; simp)
        (by rw [hsL]; norm_num), hsL]
      norm_num [mcLarge]
    have hcS : check_model_available mcSmall.name (availEcho mcSmall.name) =
      true := by decide
    have hcM : check_model_available mcMedium.name (availEcho mcMedium.name) =
      true := by decide
    have hcL : check_model_available mcLarge.name (availEcho mcLarge.name) =
      true := by decide
    simp only [models, calculate_throughput_metrics, hcS, hcM, hcL, if_true,
      htS, htM, htL]

/-- Witness for C5: the small configuration with three successful
one-second trials has total rate equal to single rate times its
replication factor 4. -/
theorem c5_total_rate_witness :
    ∃ en, throughputForConfig mcSmall (List.replicate 3 oneSecondCall) =
        .ok (some en) ∧
      en.total_rpm = en.single_pod_rpm * (mcSmall.pods_per_gpu : ℚ) ∧
      en.pods = mcSmall.pods_per_gpu :=
  c5_total_rate.1 mcSmall (List.replicate 3 oneSecondCall) (by decide)
    (by decide)

/-- C2: for every batch and nonzero wall-clock time the summary reports
requests per minute equal to the success count divided by the
wall-clock seconds times 60; the wall clock is the time from dispatch
start to last completion under the greedy four-worker pool, so six
requests of one second each complete in 2 seconds of wall time (two
waves), not the 6-second sum of the durations, and the scenario
aggregate is 180 requests per minute. -/
theorem c2_aggregate_rpm :
    (∀ (recs : List ReqRecord) (t : ℚ), t ≠ 0 →
      ∃ s, loadSummary recs t = .ok s ∧
        s.requests_per_minute = (successCount recs : ℚ) / t * 60) ∧
    wallClock 4 (List.replicate num_requests 1) = 2 ∧
    (List.replicate num_requests (1 : ℚ)).sum = 6 ∧
    ∃ s, loadSummary (concurrentResults scenarioReqs (List.range num_requests))
        (wallClock 4 (List.replicate num_requests 1)) = .ok s ∧
      s.requests_per_minute = 180 := by
  have hgen : ∀ (recs : List ReqRecord) (t : ℚ), t ≠ 0 →
      ∃ s, loadSummary recs t = .ok s ∧
        s.requests_per_minute = (successCount recs : ℚ) / t * 60 :=
    fun recs t ht => ⟨summaryOf recs t, loadSummary_eq recs t ht, rfl⟩
  have hwall : wallClock 4 (List.replicate num_requests 1) = 2 := by
    show wallClock 4 [1, 1, 1, 1, 1, 1] = 2
    norm_num [wallClock, poolFinish, listMin, listMax, replaceFirst,
      min_def, max_def, List.replicate]
  have hsum : (List.replicate num_requests (1 : ℚ)).sum = 6 := by
    show ([1, 1, 1, 1, 1, 1] : List ℚ).sum = 6
    norm_num
  have hcount : successCount (concurrentResults scenarioReqs
      (List.range num_requests)) = 6 := by decide
  obtain ⟨s, hs, hrpm⟩ := hgen
    (concurrentResults scenarioReqs (List.range num_requests))
    (wallClock 4 (List.replicate num_requests 1)) (by rw [hwall]; norm_num)
  refine ⟨hgen, hwall, hsum, s, hs, ?_⟩
  rw [hrpm, hcount, hwall]
  norm_num

/-- Witness for C2: an empty batch over one second of wall time has the
rate given by the formula. -/
theorem c2_aggregate_rpm_witness :
    ∃ s, loadSummary [] 5 = .ok s ∧
      s.requests_per_minute = (successCount [] : ℚ) / 5 * 60 :=
  c2_aggregate_rpm.1 [] 5 (by norm_num)

end GPUDemo
